import Mathlib

set_option autoImplicit false

namespace MaestroFastify

/-!
Shallow embedding of the maestro-fastify adapter.

The definitions below are translated from the TypeScript sources:
src/Adapter.ts, src/sendResponse/SendResponse.ts,
src/transformRequest/TransformRequest.ts, src/error/ErrorHandler.ts and
src/commands/Commands.ts. External collaborators (the maestro orchestrator
and the fastify library) are modelled only through the surface the adapter
touches; where the repository does not contain the collaborator code, the
model follows the specification and says so in the doc comment.
-/

/-- Model of the JavaScript values that flow through the adapter: strings,
numbers, booleans, null, undefined and plain objects, the latter as ordered
field lists in for-in iteration order. -/
inductive Value where
  | vNull
  | vUndefined
  | vStr (s : String)
  | vNum (n : Int)
  | vBool (b : Bool)
  | vObj (fields : List (String × Value))

/-- Adapter.ADAPTER_NAME from src/Adapter.ts. -/
def ADAPTER_NAME : String := "Fastify"

/-- Model of the mutable fastify reply object, restricted to the surface the
adapter mutates: the HTTP status, the response headers, and the cookies added
through setCookie. Cookies keep the triple of arguments the adapter passes to
reply.setCookie: cookie name, cookie value, serialize options. -/
structure FastifyReply where
  statusCode : Option Nat
  headers : List (String × Value)
  cookies : List (String × Value × Value)

/-- A fresh reply: no status set, no headers, no cookies. -/
def FastifyReply.empty : FastifyReply :=
  { statusCode := none, headers := [], cookies := [] }

/-- Effect of reply.status on the native response. -/
def FastifyReply.setStatus (r : FastifyReply) (n : Nat) : FastifyReply :=
  { r with statusCode := some n }

/-- Effect of reply.header: sets the named header, overwriting a previous
value stored under the same name. -/
def FastifyReply.setHeader (r : FastifyReply) (k : String) (v : Value) : FastifyReply :=
  { r with headers := r.headers.filter (fun p => p.1 != k) ++ [(k, v)] }

/-- Effect of reply.setCookie: appends a cookie entry with the value and the
serialize options the caller passed. -/
def FastifyReply.setCookie (r : FastifyReply) (name : String) (value : Value) (opts : Value) :
    FastifyReply :=
  { r with cookies := r.cookies ++ [(name, value, opts)] }

/-- Model of the error objects reaching the error handler in
src/error/ErrorHandler.ts. The handler only reads error.message, tests
whether typeof error.exitCode is string and whether typeof error.httpStatus
is number; an Option none models the field being absent or of another type. -/
structure ErrorObj where
  message : String
  exitCode : Option String
  httpStatus : Option Nat

/-- The ErrorPayload record built by the error handler in
src/error/ErrorHandler.ts. -/
structure ErrorPayload where
  exitCode : String
  message : String
deriving DecidableEq, Repr

/-- The payload as the JavaScript object the resolve callback receives. -/
def ErrorPayload.toValue (p : ErrorPayload) : Value :=
  Value.vObj [("exitCode", Value.vStr p.exitCode), ("message", Value.vStr p.message)]

/-- How the promise returned to fastify is settled: by the resolve callback
with a value or by the reject callback with an error payload. -/
inductive Settle where
  | resolved (v : Value)
  | rejected (p : ErrorPayload)

/-- ErrorHandler from src/error/ErrorHandler.ts: builds an ErrorPayload whose
exitCode defaults to REQUEST_REFUSED unless the error carries a string
exitCode and whose message is the raw error message; when the error carries a
numeric httpStatus the response status is set to it and the payload is
resolved, otherwise the status is set to 500 and the payload is rejected. -/
def ErrorHandler (response : FastifyReply) (error : ErrorObj) : FastifyReply × Settle :=
  let errorPayload : ErrorPayload := { exitCode := "REQUEST_REFUSED", message := error.message }
  let errorPayload :=
    match error.exitCode with
    | some s => { errorPayload with exitCode := s }
    | none => errorPayload
  match error.httpStatus with
  | some n => (response.setStatus n, Settle.resolved errorPayload.toValue)
  | none => (response.setStatus 500, Settle.rejected errorPayload)

/-- Enumerable own fields of a JavaScript value; primitives contribute none
here (the command payloads the repository builds are plain objects). -/
def Value.objFields : Value → List (String × Value)
  | .vObj fields => fields
  | _ => []

/-- JavaScript member access of the field named value, undefined when the
receiver is not an object or lacks the field. -/
def Value.getValueField : Value → Value
  | .vObj fields =>
    match fields.lookup "value" with
    | some v => v
    | none => .vUndefined
  | _ => .vUndefined

/-- The set-header entry of the Commands mapping in src/commands/Commands.ts:
for each field of the payload object, set the header of that name. -/
def setHeaderCommand (response : FastifyReply) (payload : Value) : FastifyReply :=
  payload.objFields.foldl (fun r p => r.setHeader p.1 p.2) response

/-- The create-cookie entry of the Commands mapping in
src/commands/Commands.ts: for each field of the payload object, call
setCookie with the field name, the value member of the field, and the field
itself as serialize options. -/
def createCookieCommand (response : FastifyReply) (payload : Value) : FastifyReply :=
  payload.objFields.foldl (fun r p => r.setCookie p.1 p.2.getValueField p.2) response

/-- The static Commands mapping of src/commands/Commands.ts: command name to
side-effecting function, with exactly the keys set-header and create-cookie. -/
def Commands (name : String) : Option (FastifyReply → Value → FastifyReply) :=
  if name = "set-header" then some setHeaderCommand
  else if name = "create-cookie" then some createCookieCommand
  else none

/-- The adapters field of a command at runtime: absent (null or undefined), a
single adapter name held as a string, or an array of adapter names. -/
inductive AdaptersField where
  | absent
  | single (name : String)
  | array (names : List String)

/-- Array.isArray on the adapters field. -/
def AdaptersField.isArray : AdaptersField → Bool
  | .array _ => true
  | _ => false

/-- Array includes on the adapters field; false on non-arrays. -/
def AdaptersField.arrayIncludes (a : AdaptersField) (s : String) : Bool :=
  match a with
  | .array names => names.contains s
  | _ => false

/-- Loose equality of the adapters field with null. -/
def AdaptersField.isNull : AdaptersField → Bool
  | .absent => true
  | _ => false

/-- Strict equality of the adapters field with a string. -/
def AdaptersField.eqString (a : AdaptersField) (s : String) : Bool :=
  match a with
  | .single n => n == s
  | _ => false

/-- An ICommand as the dispatcher sees it: name, adapters filter, payload. -/
structure Command where
  name : String
  adapters : AdaptersField
  payload : Value

/-- The single-command branch of applyCommandsToResponse in
src/sendResponse/SendResponse.ts, translated guard by guard: return early
when adapters is an array not including the fastify adapter name; then apply
the command only when adapters is null or is exactly the adapter name string
and the name is a known command. -/
def applyCommandToResponse (response : FastifyReply) (command : Command) : FastifyReply :=
  if command.adapters.isArray && !(command.adapters.arrayIncludes ADAPTER_NAME) then
    response
  else if command.adapters.isNull || command.adapters.eqString ADAPTER_NAME then
    match Commands command.name with
    | some run => run response command.payload
    | none => response
  else
    response

/-- The commands field attached to a route response: one command or an array
of commands. -/
inductive CommandsField where
  | one (c : Command)
  | many (cs : List Command)

/-- applyCommandsToResponse from src/sendResponse/SendResponse.ts: recurse
over an array of commands, dispatch a single command directly. -/
def applyCommandsToResponse (response : FastifyReply) (commands : CommandsField) : FastifyReply :=
  match commands with
  | .many cs => cs.foldl applyCommandToResponse response
  | .one c => applyCommandToResponse response c

/-- Adapter.CreateCookie from src/Adapter.ts: builds a create-cookie command
whose adapters field is the one-element array holding the fastify adapter
name and whose payload is the flat object with the name field, the value
field and the spread serialize options. -/
def CreateCookie (name : String) (value : String) (options : List (String × Value)) : Command :=
  { name := "create-cookie"
    adapters := AdaptersField.array [ADAPTER_NAME]
    payload := Value.vObj ([("name", Value.vStr name), ("value", Value.vStr value)] ++ options) }

/-- An IApiRouteResponse as SendResponse reads it: payload, optional
commands, exit code and HTTP status. -/
structure RouteResponse where
  payload : Value
  commands : Option CommandsField
  exitCode : String
  status : Nat

/-- JavaScript nullish coalescing: the second operand when the first is null
or undefined. -/
def Value.nullish (a b : Value) : Value :=
  match a with
  | .vNull => b
  | .vUndefined => b
  | v => v

/-- SendResponse from src/sendResponse/SendResponse.ts: coalesce the payload
with the empty object so the promise is never resolved with null or
undefined, apply the commands when present, set the X-Exit-Code header to the
exit code, set the status, and resolve with the coalesced payload. The first
component is the mutated reply, the second the value given to resolve. -/
def SendResponse (routeResp : RouteResponse) (response : FastifyReply) : FastifyReply × Value :=
  let send := routeResp.payload.nullish (Value.vObj [])
  let response :=
    match routeResp.commands with
    | some cs => applyCommandsToResponse response cs
    | none => response
  let response := response.setHeader "X-Exit-Code" (Value.vStr routeResp.exitCode)
  let response := response.setStatus routeResp.status
  (response, send)

/-- The reply after the command dispatch step of SendResponse: unchanged when
the commands field is null. -/
def responseAfterCommands (routeResp : RouteResponse) (response : FastifyReply) : FastifyReply :=
  match routeResp.commands with
  | some cs => applyCommandsToResponse response cs
  | none => response

/-- The HTTP methods of the maestro HTTPMethod union type. -/
inductive HTTPMethod where
  | all
  | connect
  | delete
  | get
  | head
  | options
  | patch
  | post
  | put
  | search
  | trace
deriving DecidableEq, Repr

/-- The methods field of a route: a single method or an array of methods, as
distinguished by Array.isArray in loadRoutesFromContainers. -/
inductive MethodsField where
  | one (m : HTTPMethod)
  | many (ms : List HTTPMethod)
deriving DecidableEq, Repr

/-- An IProxiedRoute as the adapter reads it. The id field models JavaScript
object identity: the includes checks of the adapter compare references, and
distinct route objects have distinct ids. -/
structure Route where
  id : Nat
  url : String
  methods : MethodsField
deriving DecidableEq, Repr

/-- An IContainer as the adapter reads it: allRoutes gives the route list.
The id field models JavaScript object identity for the includes check of
addContainer. -/
structure Container where
  id : Nat
  routes : List Route
deriving DecidableEq, Repr

/-- Model of the native fastify request, restricted to the fields
TransformRequest reads. The body, query and params objects are already
coalesced with the empty object, matching the nullish coalescing in
TransformRequest. -/
structure FastifyRequest where
  url : String
  ip : String
  ips : Option (List String)
  headers : List (String × Value)
  cookies : List (String × Value)
  body : List (String × Value)
  query : List (String × Value)
  params : List (String × Value)

/-- String coercion a JavaScript value undergoes in string concatenation
with the plus operator. -/
def Value.asConcatString : Value → String
  | .vStr s => s
  | .vUndefined => "undefined"
  | .vNull => "null"
  | .vNum n => toString n
  | .vBool b => toString b
  | .vObj _ => "[object Object]"

/-- The request identification built by TransformRequest: the joined ips list
when present, the single ip otherwise, a separator, and the user-agent
header. Because the plus operator binds tighter than nullish coalescing in
the source expression, the UA-NOT-PROVIDED fallback never applies and a
missing user-agent header is coerced to the string undefined. -/
def requestIdentification (request : FastifyRequest) : String :=
  (match request.ips with
   | some l => String.intercalate " - " l
   | none => request.ip)
  ++ " | "
  ++ (match request.headers.lookup "user-agent" with
      | some v => v.asConcatString
      | none => Value.vUndefined.asConcatString)

/-- Modelled from the spec: the RouteRequest class of the maestro package is
not part of this repository; per the specification the normalized request
holds a mapping keyed by parameter name, and RouteRequest.add stores a
parameter under its name with last-write-wins on collision across sources. -/
structure RouteRequest where
  adapter : String
  url : String
  identification : String
  method : Option HTTPMethod
  parameters : List (String × Value)

/-- Modelled from the spec: req.add stores the value under the parameter
name, overwriting any earlier binding of the same name. The origin argument
mirrors the call shape of the source; the mapping is keyed by name only. -/
def RouteRequest.add (req : RouteRequest) (name : String) (value : Value) (origin : String) :
    RouteRequest :=
  let _ := origin
  { req with parameters := req.parameters.filter (fun p => p.1 != name) ++ [(name, value)] }

/-- Reads a parameter of the normalized request by name. -/
def RouteRequest.get (req : RouteRequest) (name : String) : Option Value :=
  req.parameters.lookup name

/-- One for-in copy loop of TransformRequest: add every field of the source
object under the given origin, in iteration order. -/
def addAll (req : RouteRequest) (source : List (String × Value)) (origin : String) :
    RouteRequest :=
  source.foldl (fun r p => r.add p.1 p.2 origin) req

/-- TransformRequest from src/transformRequest/TransformRequest.ts: build a
fresh RouteRequest for the adapter and the request url, set the
identification, then copy the header, cookie, body, query string and url
parameters, in that order. -/
def TransformRequest (request : FastifyRequest) : RouteRequest :=
  let req : RouteRequest :=
    { adapter := ADAPTER_NAME
      url := request.url
      identification := requestIdentification request
      method := none
      parameters := [] }
  let req := addAll req request.headers "header"
  let req := addAll req request.cookies "cookie"
  let req := addAll req request.body "body"
  let req := addAll req request.query "query"
  let req := addAll req request.params "url"
  req

/-- The adapter state the claims are about: the container list, the loaded
route list, the boot flag, a count of fastify middleware registrations made
by boot, the routes bound into fastify via fastify.route as pairs of
effective method and normalized url with the route, and a count of warnings
printed for unsupported verbs. -/
structure AdapterState where
  containers : List Container
  loadedRoutes : List Route
  booted : Bool
  middlewareRegistrations : Nat
  boundRoutes : List (HTTPMethod × String × Route)
  warnings : Nat
deriving DecidableEq, Repr

/-- The state of a freshly constructed adapter. -/
def initialState : AdapterState :=
  { containers := []
    loadedRoutes := []
    booted := false
    middlewareRegistrations := 0
    boundRoutes := []
    warnings := 0 }

/-- Url normalization of addRouteToHttpMethod: trim, then prepend a slash
when the trimmed url does not start with one. -/
def normalizeUrl (url : String) : String :=
  let t := url.trim
  if t.startsWith "/" then t else "/" ++ t

/-- addRouteToHttpMethod from src/Adapter.ts: normalize the url, turn the
unsupported verbs search and all into post with a console warning, then bind
the route under the effective method via fastify.route. -/
def addRouteToHttpMethod (s : AdapterState) (method : HTTPMethod) (route : Route) :
    AdapterState :=
  let url := normalizeUrl route.url
  let unsupported := method == HTTPMethod.search || method == HTTPMethod.all
  let s := if unsupported then { s with warnings := s.warnings + 1 } else s
  let method := if unsupported then HTTPMethod.post else method
  { s with boundRoutes := s.boundRoutes ++ [(method, url, route)] }

/-- The method list of a route: wrap a single method in a list, keep an array
as is, following the Array.isArray test in loadRoutesFromContainers. -/
def methodsOf (route : Route) : List HTTPMethod :=
  match route.methods with
  | .many ms => ms
  | .one m => [m]

/-- The body of the inner loop of loadRoutesFromContainers: skip a route that
is already loaded, otherwise bind each of its methods and append it to the
loaded list. -/
def loadRoute (s : AdapterState) (route : Route) : AdapterState :=
  if s.loadedRoutes.contains route then s
  else
    let s := (methodsOf route).foldl (fun st m => addRouteToHttpMethod st m route) s
    { s with loadedRoutes := s.loadedRoutes ++ [route] }

/-- The outer loop body of loadRoutesFromContainers over one container. -/
def loadContainer (s : AdapterState) (c : Container) : AdapterState :=
  c.routes.foldl loadRoute s

/-- loadRoutesFromContainers from src/Adapter.ts. -/
def loadRoutesFromContainers (s : AdapterState) (containers : List Container) : AdapterState :=
  containers.foldl loadContainer s

/-- addContainer from src/Adapter.ts: push the container unless it is
already present. -/
def addContainer (s : AdapterState) (c : Container) : AdapterState :=
  if s.containers.contains c then s else { s with containers := s.containers ++ [c] }

/-- boot from src/Adapter.ts: a no-op when already booted, otherwise register
the cookie, helmet and multipart middlewares, load the routes of the known
containers and set the boot flag. -/
def boot (s : AdapterState) : AdapterState :=
  if s.booted then s
  else
    let s := { s with middlewareRegistrations := s.middlewareRegistrations + 3 }
    let s := loadRoutesFromContainers s s.containers
    { s with booted := true }

/-- The public mutating operations of the adapter the loaded-route claims
quantify over. -/
inductive AdapterOp where
  | addC (c : Container)
  | loadR (cs : List Container)
  | doBoot

/-- Runs one adapter operation. -/
def applyOp (s : AdapterState) : AdapterOp → AdapterState
  | .addC c => addContainer s c
  | .loadR cs => loadRoutesFromContainers s cs
  | .doBoot => boot s

/-- Runs a sequence of adapter operations from left to right. -/
def applyOps (s : AdapterState) (ops : List AdapterOp) : AdapterState :=
  ops.foldl applyOp s

/-- Behavior of an api request handler, the handle entry point of the
orchestrator: given the route and the normalized request it either invokes
the success callback with a route response or the error callback with an
error object. -/
inductive HandlerAction where
  | success (resp : RouteResponse)
  | failure (e : ErrorObj)

/-- The type of the api handler the adapter delegates to. -/
def ApiHandler : Type := Route → RouteRequest → HandlerAction

/-- Modelled from the spec: the RequestFlowNotDefined error class of the
maestro package is not part of this repository; it is the configuration
error raised when no api request handler is associated, carrying the message
below. No string exitCode and no numeric httpStatus field are modelled. -/
def requestFlowNotDefined : ErrorObj :=
  { message := "Fastify adapter does not have an associated api request handler"
    exitCode := none
    httpStatus := none }

/-- Outcome of one request as fastify observes it: the final native reply,
how the promise returned to fastify was settled (a promise settles at most
once, the first resolve or reject wins), and whether an exception escaped the
executor after the settle. -/
structure RequestOutcome where
  response : FastifyReply
  settled : Option Settle
  crashed : Bool

/-- The _requestHandler of src/Adapter.ts. When no api handler is set, the
error handler is invoked with the RequestFlowNotDefined error and settles the
promise; the source then falls through without returning, transforms the
request and calls the missing handler, which throws inside the executor after
the promise is already settled, so nothing further reaches the reply. When a
handler is set, the request is transformed, the method recorded, and the
handler drives either SendResponse or the error handler through the
callbacks. -/
def requestHandler (apiHandler : Option ApiHandler) (route : Route) (method : HTTPMethod)
    (request : FastifyRequest) (response : FastifyReply) : RequestOutcome :=
  match apiHandler with
  | none =>
    let settledPair := ErrorHandler response requestFlowNotDefined
    let _ := TransformRequest request
    { response := settledPair.1, settled := some settledPair.2, crashed := true }
  | some handler =>
    let apiRequest := TransformRequest request
    let apiRequest := { apiRequest with method := some method }
    match handler route apiRequest with
    | .success resp =>
      let sent := SendResponse resp response
      { response := sent.1, settled := some (Settle.resolved sent.2), crashed := false }
    | .failure e =>
      let handled := ErrorHandler response e
      { response := handled.1, settled := some handled.2, crashed := false }

/-- Combines an optional value with a fallback: the first when present. -/
def orO {β : Type} (a b : Option β) : Option β :=
  match a with
  | some v => some v
  | none => b

/-- The last binding of a key in a source object, in for-in iteration order. -/
def lookupLast (k : String) (l : List (String × Value)) : Option Value :=
  List.lookup k l.reverse

/-- The value the specification predicts for a parameter name after the copy
loops: the binding from the last source containing the name, in the copy
order header, cookie, body, query string, url parameters. -/
def prioritizedLookup (request : FastifyRequest) (k : String) : Option Value :=
  orO (lookupLast k request.params)
    (orO (lookupLast k request.query)
      (orO (lookupLast k request.body)
        (orO (lookupLast k request.cookies) (lookupLast k request.headers))))

/-- The first list is an initial segment of the second: the second arises
from the first by appending entries at the end only. -/
def InitialSegment (l1 l2 : List Route) : Prop :=
  ∃ t, l1 ++ t = l2

/-- A known error for evaluating the error handler: it carries a string exit
code and the numeric HTTP status 404. -/
def knownError : ErrorObj :=
  { message := "resource not found", exitCode := some "NOT_FOUND", httpStatus := some 404 }

/-- An unknown error for evaluating the error handler: no exit code, no
numeric HTTP status. -/
def unknownError : ErrorObj :=
  { message := "boom", exitCode := none, httpStatus := none }

/-- The command produced by Adapter.CreateCookie for a sample cookie. -/
def sampleCreateCookieCommand : Command :=
  CreateCookie "session" "abc123" []

/-- A command whose name is not a key of the static Commands mapping. -/
def strangeNamedCommand : Command :=
  { name := "no-such-command", adapters := AdaptersField.absent, payload := Value.vObj [] }

/-- A native request carrying the same parameter name in the header source
and in the query string source, with different values. -/
def collidingRequest : FastifyRequest :=
  { url := "/collide"
    ip := "127.0.0.1"
    ips := none
    headers := [("dup", Value.vStr "from-header")]
    cookies := []
    body := []
    query := [("dup", Value.vStr "from-query")]
    params := [] }

/-- A native request whose only parameter lives in the header source. -/
def headerOnlyRequest : FastifyRequest :=
  { url := "/only"
    ip := "127.0.0.1"
    ips := none
    headers := [("tok", Value.vStr "h-val")]
    cookies := []
    body := []
    query := []
    params := [] }

/-- A sample route response with a non-null payload and no commands. -/
def sampleRouteResponse : RouteResponse :=
  { payload := Value.vStr "ok", commands := none, exitCode := "SUCCESS", status := 201 }

/-- An adapter state whose boot flag is already set. -/
def bootedSample : AdapterState :=
  { initialState with booted := true }

/-!
Helper lemmas. The claim theorems themselves come afterwards, one per claim.
-/

theorem orO_some {β : Type} (v : β) (b : Option β) : orO (some v) b = some v := rfl

theorem orO_none {β : Type} (b : Option β) : orO none b = b := rfl

theorem orO_none_right {β : Type} (a : Option β) : orO a none = a := by
  cases a <;> rfl

theorem lookup_append {β : Type} (l1 l2 : List (String × β)) (k : String) :
    List.lookup k (l1 ++ l2) = orO (List.lookup k l1) (List.lookup k l2) := by
  induction l1 with
  | nil => simp [List.lookup, orO]
  | cons a t ih =>
    obtain ⟨a1, a2⟩ := a
    by_cases h : k = a1
    · subst h
      simp [List.lookup, orO]
    · have hb : (k == a1) = false := beq_eq_false_iff_ne.mpr h
      simp [List.lookup, hb, ih]

theorem lookup_filterout_append {β : Type} (l : List (String × β)) (name k : String) (v : β) :
    List.lookup k (l.filter (fun p => p.1 != name) ++ [(name, v)]) =
      if k = name then some v else List.lookup k l := by
  induction l with
  | nil =>
    by_cases h : k = name
    · subst h
      simp [List.lookup]
    · have hb : (k == name) = false := beq_eq_false_iff_ne.mpr h
      simp [List.lookup, hb, h]
  | cons a t ih =>
    obtain ⟨a1, a2⟩ := a
    by_cases ha : a1 = name
    · subst ha
      have hfa : ((a1, a2).1 != a1) = false := by simp
      by_cases hk : k = a1
      · subst hk
        simp [List.filter_cons, hfa, ih]
      · have hb : (k == a1) = false := beq_eq_false_iff_ne.mpr hk
        simp [List.filter_cons, hfa, List.lookup, hb, hk, ih]
    · have hfa : ((a1, a2).1 != name) = true := by
        simp [bne, beq_eq_false_iff_ne.mpr ha]
      by_cases hk : k = a1
      · subst hk
        have hkn : ¬k = name := ha
        have hb : (k == k) = true := beq_self_eq_true k
        simp [List.filter_cons, hfa, List.lookup, hb, hkn]
      · have hb : (k == a1) = false := beq_eq_false_iff_ne.mpr hk
        simp [List.filter_cons, hfa, List.lookup, hb, ih]

theorem get_add (req : RouteRequest) (name k : String) (v : Value) (origin : String) :
    (req.add name v origin).get k = if k = name then some v else req.get k := by
  simp [RouteRequest.add, RouteRequest.get, lookup_filterout_append]

theorem get_addAll (source : List (String × Value)) (req : RouteRequest) (origin k : String) :
    (addAll req source origin).get k = orO (lookupLast k source) (req.get k) := by
  induction source generalizing req with
  | nil => simp [addAll, lookupLast, List.lookup, orO]
  | cons a t ih =>
    obtain ⟨a1, a2⟩ := a
    have hstep : addAll req ((a1, a2) :: t) origin = addAll (req.add a1 a2 origin) t origin := rfl
    rw [hstep, ih]
    have hrev : lookupLast k ((a1, a2) :: t) = orO (lookupLast k t) (List.lookup k [(a1, a2)]) := by
      simp only [lookupLast, List.reverse_cons]
      exact lookup_append t.reverse [(a1, a2)] k
    rw [hrev]
    cases lookupLast k t with
    | none =>
      simp only [orO_none]
      rw [get_add]
      by_cases hk : k = a1
      · subst hk
        simp [List.lookup, orO]
      · have hb : (k == a1) = false := beq_eq_false_iff_ne.mpr hk
        simp [List.lookup, hb, hk, orO]
    | some w => simp [orO_some]

theorem transformRequest_get (request : FastifyRequest) (k : String) :
    (TransformRequest request).get k = prioritizedLookup request k := by
  unfold TransformRequest prioritizedLookup
  simp only [get_addAll]
  cases lookupLast k request.params <;>
    cases lookupLast k request.query <;>
      cases lookupLast k request.body <;>
        cases lookupLast k request.cookies <;>
          cases lookupLast k request.headers <;>
            rfl

theorem InitialSegment.refl (l : List Route) : InitialSegment l l :=
  ⟨[], List.append_nil l⟩

theorem InitialSegment.trans {l1 l2 l3 : List Route} (h1 : InitialSegment l1 l2)
    (h2 : InitialSegment l2 l3) : InitialSegment l1 l3 := by
  obtain ⟨t1, ht1⟩ := h1
  obtain ⟨t2, ht2⟩ := h2
  exact ⟨t1 ++ t2, by rw [← List.append_assoc, ht1, ht2]⟩

theorem InitialSegment.mem {l1 l2 : List Route} (h : InitialSegment l1 l2) {r : Route}
    (hr : r ∈ l1) : r ∈ l2 := by
  obtain ⟨t, ht⟩ := h
  rw [← ht]
  exact List.mem_append_left t hr

theorem addRoute_loadedRoutes (s : AdapterState) (m : HTTPMethod) (r : Route) :
    (addRouteToHttpMethod s m r).loadedRoutes = s.loadedRoutes := by
  cases m <;> rfl

theorem foldl_addRoute_loadedRoutes (ms : List HTTPMethod) (s : AdapterState) (r : Route) :
    (ms.foldl (fun st m => addRouteToHttpMethod st m r) s).loadedRoutes = s.loadedRoutes := by
  induction ms generalizing s with
  | nil => rfl
  | cons m t ih => rw [List.foldl_cons, ih, addRoute_loadedRoutes]

theorem loadRoute_loadedRoutes (s : AdapterState) (r : Route) :
    (loadRoute s r).loadedRoutes =
      if s.loadedRoutes.contains r then s.loadedRoutes else s.loadedRoutes ++ [r] := by
  by_cases h : r ∈ s.loadedRoutes
  · simp [loadRoute, h]
  · simp [loadRoute, h, foldl_addRoute_loadedRoutes]

theorem loadRoute_initialSegment (s : AdapterState) (r : Route) :
    InitialSegment s.loadedRoutes (loadRoute s r).loadedRoutes := by
  rw [loadRoute_loadedRoutes]
  by_cases h : s.loadedRoutes.contains r
  · rw [if_pos h]
    exact InitialSegment.refl _
  · rw [if_neg h]
    exact ⟨[r], rfl⟩

theorem loadRoute_nodup (s : AdapterState) (r : Route) (h : s.loadedRoutes.Nodup) :
    (loadRoute s r).loadedRoutes.Nodup := by
  rw [loadRoute_loadedRoutes]
  by_cases hc : s.loadedRoutes.contains r
  · rw [if_pos hc]
    exact h
  · rw [if_neg hc]
    have hmem : r ∉ s.loadedRoutes := by
      intro hm
      exact hc (List.elem_iff.mpr hm)
    simp [List.nodup_append, h, hmem]

theorem loadRoute_of_mem (s : AdapterState) (r : Route) (h : r ∈ s.loadedRoutes) :
    loadRoute s r = s := by
  simp [loadRoute, h]

theorem mem_loadRoute_self (s : AdapterState) (r : Route) : r ∈ (loadRoute s r).loadedRoutes := by
  rw [loadRoute_loadedRoutes]
  by_cases h : s.loadedRoutes.contains r
  · rw [if_pos h]
    exact List.elem_iff.mp h
  · rw [if_neg h]
    simp

theorem foldl_initialSegment {α : Type} (f : AdapterState → α → AdapterState)
    (hf : ∀ s a, InitialSegment s.loadedRoutes (f s a).loadedRoutes) (l : List α)
    (s : AdapterState) : InitialSegment s.loadedRoutes (l.foldl f s).loadedRoutes := by
  induction l generalizing s with
  | nil => exact InitialSegment.refl _
  | cons a t ih => exact (hf s a).trans (ih (f s a))

theorem foldl_nodup {α : Type} (f : AdapterState → α → AdapterState)
    (hf : ∀ s a, s.loadedRoutes.Nodup → (f s a).loadedRoutes.Nodup) (l : List α)
    (s : AdapterState) (h : s.loadedRoutes.Nodup) : (l.foldl f s).loadedRoutes.Nodup := by
  induction l generalizing s with
  | nil => exact h
  | cons a t ih => exact ih (f s a) (hf s a h)

theorem loadContainer_initialSegment (s : AdapterState) (c : Container) :
    InitialSegment s.loadedRoutes (loadContainer s c).loadedRoutes :=
  foldl_initialSegment loadRoute loadRoute_initialSegment c.routes s

theorem loadContainer_nodup (s : AdapterState) (c : Container) (h : s.loadedRoutes.Nodup) :
    (loadContainer s c).loadedRoutes.Nodup :=
  foldl_nodup loadRoute loadRoute_nodup c.routes s h

theorem loadRFC_initialSegment (s : AdapterState) (cs : List Container) :
    InitialSegment s.loadedRoutes (loadRoutesFromContainers s cs).loadedRoutes :=
  foldl_initialSegment loadContainer loadContainer_initialSegment cs s

theorem loadRFC_nodup (s : AdapterState) (cs : List Container) (h : s.loadedRoutes.Nodup) :
    (loadRoutesFromContainers s cs).loadedRoutes.Nodup :=
  foldl_nodup loadContainer loadContainer_nodup cs s h

theorem addContainer_loadedRoutes (s : AdapterState) (c : Container) :
    (addContainer s c).loadedRoutes = s.loadedRoutes := by
  by_cases h : c ∈ s.containers
  · simp [addContainer, h]
  · simp [addContainer, h]

theorem boot_booted (s : AdapterState) : (boot s).booted = true := by
  unfold boot
  by_cases h : s.booted
  · rw [if_pos h]
    exact h
  · rw [if_neg h]

theorem boot_of_booted (s : AdapterState) (h : s.booted = true) : boot s = s := by
  unfold boot
  rw [if_pos h]

theorem boot_initialSegment (s : AdapterState) :
    InitialSegment s.loadedRoutes (boot s).loadedRoutes := by
  unfold boot
  by_cases h : s.booted
  · rw [if_pos h]
    exact InitialSegment.refl _
  · rw [if_neg h]
    exact loadRFC_initialSegment
      { s with middlewareRegistrations := s.middlewareRegistrations + 3 } s.containers

theorem boot_nodup (s : AdapterState) (h : s.loadedRoutes.Nodup) :
    (boot s).loadedRoutes.Nodup := by
  unfold boot
  by_cases hb : s.booted
  · rw [if_pos hb]
    exact h
  · rw [if_neg hb]
    exact loadRFC_nodup
      { s with middlewareRegistrations := s.middlewareRegistrations + 3 } s.containers h

theorem applyOp_initialSegment (s : AdapterState) (op : AdapterOp) :
    InitialSegment s.loadedRoutes (applyOp s op).loadedRoutes := by
  cases op with
  | addC c =>
    show InitialSegment s.loadedRoutes (addContainer s c).loadedRoutes
    rw [addContainer_loadedRoutes]
    exact InitialSegment.refl _
  | loadR cs => exact loadRFC_initialSegment s cs
  | doBoot => exact boot_initialSegment s

theorem applyOp_nodup (s : AdapterState) (op : AdapterOp) (h : s.loadedRoutes.Nodup) :
    (applyOp s op).loadedRoutes.Nodup := by
  cases op with
  | addC c =>
    show (addContainer s c).loadedRoutes.Nodup
    rw [addContainer_loadedRoutes]
    exact h
  | loadR cs => exact loadRFC_nodup s cs h
  | doBoot => exact boot_nodup s h

theorem applyOps_initialSegment (s : AdapterState) (ops : List AdapterOp) :
    InitialSegment s.loadedRoutes (applyOps s ops).loadedRoutes :=
  foldl_initialSegment applyOp applyOp_initialSegment ops s

theorem applyOps_nodup (s : AdapterState) (ops : List AdapterOp) (h : s.loadedRoutes.Nodup) :
    (applyOps s ops).loadedRoutes.Nodup :=
  foldl_nodup applyOp applyOp_nodup ops s h

theorem mem_foldl_loadRoute (l : List Route) (s : AdapterState) (r : Route) (h : r ∈ l) :
    r ∈ (l.foldl loadRoute s).loadedRoutes := by
  induction l generalizing s with
  | nil => cases h
  | cons a t ih =>
    rw [List.foldl_cons]
    rcases List.mem_cons.mp h with rfl | h2
    · exact (foldl_initialSegment loadRoute loadRoute_initialSegment t (loadRoute s r)).mem
        (mem_loadRoute_self s r)
    · exact ih (loadRoute s a) h2

theorem mem_after_loadRFC (s : AdapterState) (cs : List Container) (c : Container)
    (hc : c ∈ cs) (r : Route) (hr : r ∈ c.routes) :
    r ∈ (loadRoutesFromContainers s cs).loadedRoutes := by
  induction cs generalizing s with
  | nil => cases hc
  | cons c0 t ih =>
    show r ∈ ((c0 :: t).foldl loadContainer s).loadedRoutes
    rw [List.foldl_cons]
    rcases List.mem_cons.mp hc with rfl | h2
    · exact (foldl_initialSegment loadContainer loadContainer_initialSegment t
        (loadContainer s c)).mem (mem_foldl_loadRoute c.routes s r hr)
    · exact ih (loadContainer s c0) h2

theorem foldl_loadRoute_of_mem (l : List Route) (s : AdapterState)
    (h : ∀ r ∈ l, r ∈ s.loadedRoutes) : l.foldl loadRoute s = s := by
  induction l with
  | nil => rfl
  | cons a t ih =>
    rw [List.foldl_cons, loadRoute_of_mem s a (h a (List.mem_cons_self a t))]
    exact ih fun r hr => h r (List.mem_cons_of_mem a hr)

theorem loadRFC_of_mem (cs : List Container) (s : AdapterState)
    (h : ∀ c ∈ cs, ∀ r ∈ c.routes, r ∈ s.loadedRoutes) :
    loadRoutesFromContainers s cs = s := by
  induction cs with
  | nil => rfl
  | cons c t ih =>
    show (c :: t).foldl loadContainer s = s
    rw [List.foldl_cons]
    have hc : loadContainer s c = s :=
      foldl_loadRoute_of_mem c.routes s (h c (List.mem_cons_self c t))
    rw [hc]
    exact ih fun c2 h2 => h c2 (List.mem_cons_of_mem c h2)

theorem loadRFC_reload (s : AdapterState) (cs : List Container) :
    loadRoutesFromContainers (loadRoutesFromContainers s cs) cs =
      loadRoutesFromContainers s cs :=
  loadRFC_of_mem cs (loadRoutesFromContainers s cs)
    fun c hc r hr => mem_after_loadRFC s cs c hc r hr

/-!
Claim theorems, one per claim of the specification review.
-/

/-- C1: for every error object passed to the error handler, an error carrying
a numeric HTTP status sets the native response status to exactly that status
and resolves a structured failure payload, while every other error sets the
native response status to 500 and propagates the raw error message inside the
rejected payload. -/
theorem C1_error_handler_two_branches (response : FastifyReply) (e : ErrorObj) :
    (∀ n : Nat, e.httpStatus = some n →
      (ErrorHandler response e).1.statusCode = some n ∧
      (ErrorHandler response e).2 =
        Settle.resolved (ErrorPayload.toValue
          { exitCode := e.exitCode.getD "REQUEST_REFUSED", message := e.message })) ∧
    (e.httpStatus = none →
      (ErrorHandler response e).1.statusCode = some 500 ∧
      (ErrorHandler response e).2 =
        Settle.rejected
          { exitCode := e.exitCode.getD "REQUEST_REFUSED", message := e.message }) := by
  obtain ⟨msg, ec, hs⟩ := e
  refine ⟨?_, ?_⟩
  · intro n hn
    cases hs with
    | some m =>
      injection hn with hmn
      subst hmn
      cases ec <;> exact ⟨rfl, rfl⟩
    | none => simp at hn
  · intro hn
    cases hs with
    | some m => simp at hn
    | none => cases ec <;> exact ⟨rfl, rfl⟩

/-- Witness for C1 at concrete errors: a 404 error and a status-less error. -/
theorem C1_error_handler_two_branches_witness :
    ((ErrorHandler FastifyReply.empty knownError).1.statusCode = some 404 ∧
      (ErrorHandler FastifyReply.empty knownError).2 =
        Settle.resolved (ErrorPayload.toValue
          { exitCode := knownError.exitCode.getD "REQUEST_REFUSED",
            message := knownError.message })) ∧
    ((ErrorHandler FastifyReply.empty unknownError).1.statusCode = some 500 ∧
      (ErrorHandler FastifyReply.empty unknownError).2 =
        Settle.rejected
          { exitCode := unknownError.exitCode.getD "REQUEST_REFUSED",
            message := unknownError.message }) :=
  ⟨(C1_error_handler_two_branches FastifyReply.empty knownError).1 404 rfl,
    (C1_error_handler_two_branches FastifyReply.empty unknownError).2 rfl⟩

/-- C2: evidence that the dispatcher drops commands whose adapters field is
the list holding the fastify adapter name. The command built by the
CreateCookie factory of the adapter itself has a known name and an adapters
list including the adapter name, yet dispatching it leaves the native
response unchanged, while the same command with an absent adapters field does
set cookies. -/
theorem C2_createCookie_commands_dropped :
    applyCommandToResponse FastifyReply.empty sampleCreateCookieCommand = FastifyReply.empty ∧
    applyCommandsToResponse FastifyReply.empty
        (CommandsField.many [sampleCreateCookieCommand]) = FastifyReply.empty ∧
    Commands sampleCreateCookieCommand.name = some createCookieCommand ∧
    sampleCreateCookieCommand.adapters.arrayIncludes ADAPTER_NAME = true ∧
    (applyCommandToResponse FastifyReply.empty
        { sampleCreateCookieCommand with
            adapters := AdaptersField.absent }).cookies.length = 2 :=
  ⟨rfl, rfl, rfl, rfl, rfl⟩

/-- C3 counterexample: a key present in the header source does not keep its
header value in the normalized request when the query string source carries
the same key, so the claim fails as stated. -/
theorem C3_parameter_copy_counterexample :
    collidingRequest.headers.lookup "dup" = some (Value.vStr "from-header") ∧
    (TransformRequest collidingRequest).get "dup" = some (Value.vStr "from-query") ∧
    (TransformRequest collidingRequest).get "dup" ≠ some (Value.vStr "from-header") := by
  refine ⟨rfl, rfl, ?_⟩
  intro h
  have h2 : some (Value.vStr "from-query") = some (Value.vStr "from-header") := h
  injection h2 with h3
  injection h3 with h4
  exact absurd h4 (by decide)

/-- C3 amended: every key present in the headers, cookies, body, query string
or url parameters of the native request appears in the normalized request;
its value is the native value of the last source containing the key in the
copy order header, cookie, body, query, url, so a key present in only one
source keeps its native value. -/
theorem C3_parameter_copy_amended (request : FastifyRequest) (k : String) (v : Value) :
    (((lookupLast k request.headers).isSome ∨ (lookupLast k request.cookies).isSome ∨
        (lookupLast k request.body).isSome ∨ (lookupLast k request.query).isSome ∨
        (lookupLast k request.params).isSome) →
      ((TransformRequest request).get k).isSome) ∧
    (lookupLast k request.headers = some v → lookupLast k request.cookies = none →
      lookupLast k request.body = none → lookupLast k request.query = none →
      lookupLast k request.params = none → (TransformRequest request).get k = some v) ∧
    (lookupLast k request.cookies = some v → lookupLast k request.body = none →
      lookupLast k request.query = none → lookupLast k request.params = none →
      (TransformRequest request).get k = some v) ∧
    (lookupLast k request.body = some v → lookupLast k request.query = none →
      lookupLast k request.params = none → (TransformRequest request).get k = some v) ∧
    (lookupLast k request.query = some v → lookupLast k request.params = none →
      (TransformRequest request).get k = some v) ∧
    (lookupLast k request.params = some v → (TransformRequest request).get k = some v) := by
  have ht := transformRequest_get request k
  refine ⟨?_, ?_, ?_, ?_, ?_, ?_⟩
  · intro h
    rw [ht]
    unfold prioritizedLookup
    cases hP : lookupLast k request.params with
    | some w => simp [orO]
    | none =>
      cases hQ : lookupLast k request.query with
      | some w => simp [orO]
      | none =>
        cases hB : lookupLast k request.body with
        | some w => simp [orO]
        | none =>
          cases hC : lookupLast k request.cookies with
          | some w => simp [orO]
          | none =>
            cases hH : lookupLast k request.headers with
            | some w => simp [orO]
            | none =>
              exfalso
              rcases h with h | h | h | h | h <;> simp_all
  · intro h1 h2 h3 h4 h5
    rw [ht]
    unfold prioritizedLookup
    rw [h1, h2, h3, h4, h5]
    rfl
  · intro h1 h2 h3 h4
    rw [ht]
    unfold prioritizedLookup
    rw [h1, h2, h3, h4]
    rfl
  · intro h1 h2 h3
    rw [ht]
    unfold prioritizedLookup
    rw [h1, h2, h3]
    rfl
  · intro h1 h2
    rw [ht]
    unfold prioritizedLookup
    rw [h1, h2]
    rfl
  · intro h1
    rw [ht]
    unfold prioritizedLookup
    rw [h1]
    rfl

/-- Witness for the amended C3 at a request whose only parameter is a header:
the key keeps its native value. -/
theorem C3_parameter_copy_amended_witness :
    (TransformRequest headerOnlyRequest).get "tok" = some (Value.vStr "h-val") :=
  (C3_parameter_copy_amended headerOnlyRequest "tok" (Value.vStr "h-val")).2.1
    rfl rfl rfl rfl rfl

/-- C4: a command whose name is neither set-header nor create-cookie is
silently ignored by the dispatcher: the native response is unchanged and no
error is raised, whatever the adapters field. -/
theorem C4_unknown_command_ignored (response : FastifyReply) (c : Command)
    (h1 : c.name ≠ "set-header") (h2 : c.name ≠ "create-cookie") :
    applyCommandToResponse response c = response ∧
    applyCommandsToResponse response (CommandsField.one c) = response := by
  have hc : Commands c.name = none := by simp [Commands, h1, h2]
  have hmain : applyCommandToResponse response c = response := by
    unfold applyCommandToResponse
    rw [hc]
    by_cases hA : (c.adapters.isArray && !c.adapters.arrayIncludes ADAPTER_NAME) = true
    · rw [if_pos hA]
    · rw [if_neg hA]
      by_cases hB : (c.adapters.isNull || c.adapters.eqString ADAPTER_NAME) = true
      · rw [if_pos hB]
      · rw [if_neg hB]
  exact ⟨hmain, hmain⟩

/-- Witness for C4 at a concrete command with an unknown name. -/
theorem C4_unknown_command_ignored_witness :
    applyCommandToResponse FastifyReply.empty strangeNamedCommand = FastifyReply.empty ∧
    applyCommandsToResponse FastifyReply.empty (CommandsField.one strangeNamedCommand) =
      FastifyReply.empty :=
  C4_unknown_command_ignored FastifyReply.empty strangeNamedCommand (by decide) (by decide)

/-- C5: when the request handler of the adapter is unset, an incoming request
is reported through the same error-handling path as any other error, with the
RequestFlowNotDefined configuration error: the native status and the settled
payload are exactly those the error handler produces for it, and no other
outcome settles the promise for that request. -/
theorem C5_missing_handler_config_error (route : Route) (method : HTTPMethod)
    (request : FastifyRequest) (response : FastifyReply) :
    requestHandler none route method request response =
      { response := (ErrorHandler response requestFlowNotDefined).1
        settled := some (ErrorHandler response requestFlowNotDefined).2
        crashed := true } ∧
    (requestHandler none route method request response).response.statusCode = some 500 ∧
    (requestHandler none route method request response).settled =
      some (Settle.rejected
        { exitCode := "REQUEST_REFUSED"
          message := "Fastify adapter does not have an associated api request handler" }) :=
  ⟨rfl, rfl, rfl⟩

/-- C6: collisions of a parameter name across the sources of a native request
resolve last-write-wins in the copy order header, cookie, body, query string,
url parameters: the normalized value is exactly the binding from the last
source containing the name. -/
theorem C6_collision_last_write_wins (request : FastifyRequest) (k : String) :
    (TransformRequest request).get k = prioritizedLookup request k :=
  transformRequest_get request k

/-- C7: across every sequence of addContainer, loadRoutesFromContainers and
boot calls from the initial state, the loaded-route list stays duplicate-free
and only ever grows at the end, and re-loading the same containers changes
nothing. -/
theorem C7_loaded_routes_append_only (ops more : List AdapterOp) (cs : List Container) :
    (applyOps initialState ops).loadedRoutes.Nodup ∧
    InitialSegment (applyOps initialState ops).loadedRoutes
      (applyOps initialState (ops ++ more)).loadedRoutes ∧
    loadRoutesFromContainers (loadRoutesFromContainers (applyOps initialState ops) cs) cs =
      loadRoutesFromContainers (applyOps initialState ops) cs := by
  refine ⟨applyOps_nodup initialState ops List.nodup_nil, ?_, loadRFC_reload _ cs⟩
  have happ : applyOps initialState (ops ++ more) =
      applyOps (applyOps initialState ops) more := by
    simp [applyOps, List.foldl_append]
  rw [happ]
  exact applyOps_initialSegment _ more

/-- C8: for every route response, SendResponse resolves the promise with the
payload when it is neither null nor undefined and with the empty object
otherwise, and in every case sets the X-Exit-Code header to the exit code and
the native status to the response status. -/
theorem C8_send_response_contract (routeResp : RouteResponse) (response : FastifyReply) :
    (routeResp.payload ≠ Value.vNull → routeResp.payload ≠ Value.vUndefined →
      (SendResponse routeResp response).2 = routeResp.payload) ∧
    ((routeResp.payload = Value.vNull ∨ routeResp.payload = Value.vUndefined) →
      (SendResponse routeResp response).2 = Value.vObj []) ∧
    (SendResponse routeResp response).1.headers.lookup "X-Exit-Code" =
      some (Value.vStr routeResp.exitCode) ∧
    (SendResponse routeResp response).1.statusCode = some routeResp.status := by
  have h2nd : (SendResponse routeResp response).2 =
      routeResp.payload.nullish (Value.vObj []) := rfl
  refine ⟨?_, ?_, ?_, rfl⟩
  · intro h1 h2
    rw [h2nd]
    cases hp : routeResp.payload with
    | vNull => exact absurd hp h1
    | vUndefined => exact absurd hp h2
    | vStr s => rfl
    | vNum n => rfl
    | vBool b => rfl
    | vObj f => rfl
  · intro h
    rcases h with h | h <;> rw [h2nd, h] <;> rfl
  · have hh : (SendResponse routeResp response).1.headers =
        (responseAfterCommands routeResp response).headers.filter
          (fun p => p.1 != "X-Exit-Code") ++
          [("X-Exit-Code", Value.vStr routeResp.exitCode)] := rfl
    rw [hh, lookup_filterout_append]
    simp

/-- Witness for C8 at a concrete response with a non-null payload. -/
theorem C8_send_response_contract_witness :
    (SendResponse sampleRouteResponse FastifyReply.empty).2 = Value.vStr "ok" ∧
    (SendResponse sampleRouteResponse FastifyReply.empty).1.statusCode = some 201 :=
  ⟨(C8_send_response_contract sampleRouteResponse FastifyReply.empty).1
      (fun h => Value.noConfusion h) (fun h => Value.noConfusion h),
    (C8_send_response_contract sampleRouteResponse FastifyReply.empty).2.2.2⟩

/-- C9: boot is idempotent: on an already booted state boot returns the state
unchanged, so a second boot after a first one changes nothing. -/
theorem C9_boot_idempotent (s : AdapterState) :
    (s.booted = true → boot s = s) ∧ boot (boot s) = boot s :=
  ⟨boot_of_booted s, boot_of_booted (boot s) (boot_booted s)⟩

/-- Witness for C9 at a concrete already-booted state. -/
theorem C9_boot_idempotent_witness :
    boot bootedSample = bootedSample ∧ boot (boot bootedSample) = boot bootedSample :=
  ⟨(C9_boot_idempotent bootedSample).1 rfl, (C9_boot_idempotent bootedSample).2⟩

/-- C10: a route registered with the method search or all is bound into the
underlying HTTP library under post, with a warning, while a route with any
other method is bound under its own method, with no warning. -/
theorem C10_search_all_served_as_post (s : AdapterState) (m : HTTPMethod) (r : Route) :
    (addRouteToHttpMethod s m r).boundRoutes =
      s.boundRoutes ++
        [(if m = HTTPMethod.search ∨ m = HTTPMethod.all then HTTPMethod.post else m,
          normalizeUrl r.url, r)] ∧
    (addRouteToHttpMethod s m r).warnings =
      s.warnings + (if m = HTTPMethod.search ∨ m = HTTPMethod.all then 1 else 0) := by
  cases m <;> exact ⟨rfl, rfl⟩

end MaestroFastify
